import Mathlib

/-!
Shallow embedding of the CEC compliance test engine
(`utils/cec-compliance/cec-test.cpp`) and proofs about its dispatcher,
capability tracker, timer subtests and configuration parsing.

Machine integers (`__u8`, `unsigned`, bitmasks) are embedded as `Nat`;
all values handled by the embedded fragments stay far below any wrap
point, so no explicit modular reduction is required.  Fallible C++
control flow (`fail_on_test`, early `return`) is embedded as explicit
`if`-chains returning the numeric outcome codes of the program.
-/

namespace CecCompliance

/-! ### Outcome codes

Modelled from the spec: the closed outcome taxonomy of §7 (the numeric
`#define`s live in the missing header `cec-compliance.h`).  The source
returns `0` and `OK` interchangeably, so `OK = 0`; the remaining codes
are distinct nonzero values, and `DONT_CARE` is a sentinel distinct from
every outcome code. -/

def OK : Nat := 0

def OK_NOT_SUPPORTED : Nat := 1

def OK_PRESUMED : Nat := 2

def OK_REFUSED : Nat := 3

def OK_UNEXPECTED : Nat := 4

def OK_EXPECTED_FAIL : Nat := 5

def FAIL : Nat := 6

def FAIL_CRITICAL : Nat := 7

def NOTAPPLICABLE : Nat := 8

def DONT_CARE : Nat := 0xff

/-! ### Capability/state tracker and the post-run consistency check -/

/-- The per-remote capability tracker fields used by the post-run check:
`recognized_op` and `unrecognized_op` are the two size-256 boolean
tables indexed by raw opcode (`struct remote` in the program; only
indices 0..255 are ever consulted). -/
structure RemoteDevice where
  recognized_op : Nat → Bool
  unrecognized_op : Nat → Bool

/-- Embeds `post_test_check_recognized` (cec-test.cpp:2132-2148): scan
all 256 opcodes, set a `fail` flag whenever an opcode is marked both
recognized and unrecognized, then `fail_on_test(fail)`. -/
def post_test_check_recognized (dev : RemoteDevice) : Nat :=
  let failFlag := (List.range 256).foldl
    (fun acc i => acc || (dev.recognized_op i && dev.unrecognized_op i)) false
  if failFlag then FAIL else 0

/-! ### Timer-error subtest: February boundary case -/

/-- Embeds the leap-year condition of `timer_errors`
(cec-test.cpp:1846): `!(t->tm_year % 4) && ((t->tm_year % 100) ||
!(t->tm_year % 400))`, applied to the `tm_year` field of `struct tm`,
which counts years since 1900. -/
def timer_errors_leap_cond (tm_year : Nat) : Bool :=
  tm_year % 4 == 0 && (tm_year % 100 != 0 || tm_year % 400 == 0)

/-- Embeds the February error-day selection of `timer_errors`
(cec-test.cpp:1846-1849): day 30 is sent as the invalid-day case when
the condition holds, day 29 otherwise.  `tm_year` is the target year
minus 1900. -/
def timer_errors_feb_error_day (tm_year : Nat) : Nat :=
  if timer_errors_leap_cond tm_year then 30 else 29

/-- The Gregorian leap-year rule on the calendar year itself, as the
spec states it: divisible by 4, and not by 100 unless also by 400. -/
def gregorian_leap (year : Nat) : Bool :=
  year % 4 == 0 && (year % 100 != 0 || year % 400 == 0)

/-- Error day the spec prescribes for February of `year`: day 30 in a
Gregorian leap year (when day 29 is valid), day 29 otherwise. -/
def spec_feb_error_day (year : Nat) : Nat :=
  if gregorian_leap year then 30 else 29

/-! ### Subtest catalogue and dispatcher

The dispatcher loop of `testRemote` (cec-test.cpp:2252-2298).  A
subtest's `test_fn` result and whether it raised warnings are an
interaction with the remote device; they are abstracted as oracles
indexed by the invocation counter (the k-th subtest actually executed
in the run), which models an arbitrary stateful remote. -/

/-- One catalogue entry (`struct remote_subtest` of the missing header,
fields as used by cec-test.cpp: `name`, `la_mask`, `test_fn`,
`in_standby`, `for_cec20`; `test_fn` is replaced by the outcome
oracle). -/
structure remote_subtest where
  name : String
  la_mask : Nat
  in_standby : Bool
  for_cec20 : Bool
deriving Repr, DecidableEq

/-- One feature group (`struct remote_test`, cec-test.cpp:18-22). -/
structure remote_test where
  name : String
  tags : Nat
  subtests : List remote_subtest
deriving Repr, DecidableEq

/-- Modelled from the spec: `safename` from the missing
`cec-compliance.cpp` sanitizes a subtest name for use as a map key /
command-line token (non-token characters become underscores). -/
def safename (s : String) : String :=
  ⟨s.data.map (fun c => if c = ' ' then '_' else c)⟩

/-- Environment of one `testRemote` call: the remote logical address,
the selected tag set, the CEC-2.0 qualifier state
(`remote[la].cec_version >= CEC_OP_CEC_VERSION_2_0 && node->has_cec20`,
cec-test.cpp:2260-2261), the adapter's current logical-address mask
(cec-test.cpp:2264-2269), the test-outcome and warning oracles, and the
operator expectation maps `mapTests` / `mapTestsNoWarnings` keyed by
sanitized name. -/
structure DispatchEnv where
  la : Nat
  test_tags : Nat
  cec20_ok : Bool
  laddrs_mask : Nat
  outcome : Nat → Nat
  warns : Nat → Bool
  expected : String → Nat
  noWarnings : String → Bool

/-- Record of one executed subtest: its raw `test_fn` result, the
outcome after the `OK_UNEXPECTED` escalation (cec-test.cpp:2276-2277),
whether it raised warnings, and the outcome code of the report line
printed for it (`none` when no line is printed). -/
structure SubtestRun where
  name : String
  la_mask : Nat
  raw : Nat
  ret : Nat
  warned : Bool
  reported : Option Nat
deriving Repr, DecidableEq

/-- Embeds the reporting conditional of `testRemote`
(cec-test.cpp:2279-2293): compare against `mapTests` /
`mapTestsNoWarnings`, printing `FAIL` on an expectation mismatch or on
unexpected warnings, `OK_EXPECTED_FAIL` for an expected failure, the
outcome itself otherwise; with no declared expectation the outcome is
printed unless it is `NOTAPPLICABLE`. -/
def report_line (env : DispatchEnv) (name : String) (ret : Nat) (has_warnings : Bool) :
    Option Nat :=
  if env.expected (safename name) ≠ DONT_CARE then
    if ret ≠ env.expected (safename name) then some FAIL
    else if has_warnings = true ∧ env.noWarnings (safename name) = true then some FAIL
    else if ret = FAIL then some OK_EXPECTED_FAIL
    else some ret
  else if ret ≠ NOTAPPLICABLE then some ret
  else none

/-- The outcome recorded for the k-th executed subtest: the raw
`test_fn` result, escalated to `OK_UNEXPECTED` when the subtest's
`la_mask` does not contain the remote address and the result was a
nominal success (cec-test.cpp:2276-2277). -/
def subtest_ret (env : DispatchEnv) (st : remote_subtest) (k : Nat) : Nat :=
  if st.la_mask &&& (1 <<< env.la) = 0 ∧ env.outcome k = 0 then OK_UNEXPECTED
  else env.outcome k

/-- The full record of the k-th executed subtest. -/
def mkEntry (env : DispatchEnv) (st : remote_subtest) (k : Nat) : SubtestRun :=
  ⟨st.name, st.la_mask, env.outcome k, subtest_ret env st k, env.warns k,
    report_line env st.name (subtest_ret env st k) (env.warns k)⟩

/-- Embeds the inner subtest loop of `testRemote` (cec-test.cpp:2257-
2296) on one feature group: skip a subtest whose `for_cec20` or
`in_standby` qualifier is unmet, otherwise run it, escalate a nominal
success to `OK_UNEXPECTED` when `la_mask` does not contain the remote
address, report it, and stop the whole run when the outcome is
`FAIL_CRITICAL`.  Returns the executed-subtest trace, the next
invocation counter, and whether a critical failure stopped the run. -/
def runSubtests (env : DispatchEnv) :
    List remote_subtest → Nat → List SubtestRun × Nat × Bool
  | [], k => ([], k, false)
  | st :: rest, k =>
    if (st.for_cec20 = true ∧ env.cec20_ok = false) ∨
        (st.in_standby = true ∧ env.laddrs_mask = 0) then
      runSubtests env rest k
    else if subtest_ret env st k = FAIL_CRITICAL then ([mkEntry env st k], k + 1, true)
    else
      let r := runSubtests env rest (k + 1)
      (mkEntry env st k :: r.1, r.2.1, r.2.2)

/-- Embeds the outer group loop of `testRemote` (cec-test.cpp:2252-
2298): a feature group is entered only when its tag set is contained in
the selected tags (`(test.tags & test_tags) != test.tags` skips it),
and a critical failure returns from `testRemote` altogether. -/
def testRemoteGroups (env : DispatchEnv) :
    List remote_test → Nat → List (List SubtestRun)
  | [], _ => []
  | g :: rest, k =>
    if g.tags &&& env.test_tags ≠ g.tags then testRemoteGroups env rest k
    else
      let r := runSubtests env g.subtests k
      if r.2.2 = true then [r.1]
      else r.1 :: testRemoteGroups env rest r.2.1

/-- The flat sequence of subtests executed by one `testRemote` call. -/
def testRemoteTrace (env : DispatchEnv) (ts : List remote_test) : List SubtestRun :=
  (testRemoteGroups env ts 0).flatten

/-- Reference run for one group: identical to `runSubtests` but never
stopping on a critical outcome. -/
def allEligibleGroup (env : DispatchEnv) :
    List remote_subtest → Nat → List SubtestRun × Nat
  | [], k => ([], k)
  | st :: rest, k =>
    if (st.for_cec20 = true ∧ env.cec20_ok = false) ∨
        (st.in_standby = true ∧ env.laddrs_mask = 0) then
      allEligibleGroup env rest k
    else
      let r := allEligibleGroup env rest (k + 1)
      (mkEntry env st k :: r.1, r.2)

/-- Reference run of the whole catalogue with no critical-failure stop:
every eligible subtest of every selected group is executed in catalogue
order. -/
def allEligible (env : DispatchEnv) : List remote_test → Nat → List SubtestRun
  | [], _ => []
  | g :: rest, k =>
    if g.tags &&& env.test_tags ≠ g.tags then allEligible env rest k
    else
      let r := allEligibleGroup env g.subtests k
      r.1 ++ allEligible env rest r.2

/-- Well-formedness of one executed-subtest record: its final outcome
is the raw outcome after the `OK_UNEXPECTED` escalation, and its report
line is computed by `report_line`. -/
def entry_wf (env : DispatchEnv) (e : SubtestRun) : Prop :=
  e.ret = (if e.la_mask &&& (1 <<< env.la) = 0 ∧ e.raw = 0 then OK_UNEXPECTED else e.raw) ∧
  e.reported = report_line env e.name e.ret e.warned

/-- Concrete dispatch scenario: one selected feature group with three
subtests, the second of which returns `FAIL_CRITICAL`. -/
def critEnv : DispatchEnv :=
  ⟨0, 1, true, 1, fun k => if k = 1 then FAIL_CRITICAL else OK_PRESUMED,
    fun _ => false, fun _ => DONT_CARE, fun _ => false⟩

def critCatalogue : List remote_test :=
  [⟨"Core", 1, [⟨"a", 0xffff, false, false⟩, ⟨"b", 0xffff, false, false⟩,
    ⟨"c", 0xffff, false, false⟩]⟩]

/-! ### C3: which subtests run, and in which order -/

/-- Modelled from the spec: distinct feature-tag bits from the missing
header (`TAG_POWER_STATUS`, `TAG_STANDBY_RESUME`, ...); only their
distinctness as bits matters. -/
def TAG_POWER_STATUS : Nat := 2

def TAG_STANDBY_RESUME : Nat := 1 <<< 11

/-- Modelled from the spec: logical-address mask constants of the
protocol headers; `CEC_LOG_ADDR_MASK_RECORD` covers the recorder
addresses 1, 2 and 9 and in particular does not contain the TV
address 0. -/
def CEC_LOG_ADDR_MASK_ALL : Nat := 0xffff

def CEC_LOG_ADDR_MASK_RECORD : Nat := 0x206

/-- The selection rule exactly as claim C3 states it: keep the feature
groups whose tag set has a non-empty intersection with the selected
tags, and inside them the subtests whose applicability mask contains
the remote logical address. -/
def claim_selected_names (env : DispatchEnv) (ts : List remote_test) : List String :=
  (ts.filter fun g => g.tags &&& env.test_tags != 0).flatMap
    (fun g => ((g.subtests.filter fun st => st.la_mask &&& (1 <<< env.la) != 0).map
      (fun st => st.name)))

/-- The selection rule the code implements: keep the feature groups
whose tag set is a subset of the selected tags
(cec-test.cpp:2253: `(test.tags & test_tags) != test.tags` skips), and
inside them every subtest whose `for_cec20` / `in_standby` qualifiers
are met — the applicability mask never filters. -/
def code_selected_names (env : DispatchEnv) (ts : List remote_test) : List String :=
  (ts.filter fun g => g.tags &&& env.test_tags == g.tags).flatMap
    (fun g => ((g.subtests.filter fun st =>
        (!st.for_cec20 || env.cec20_ok) && (!st.in_standby || env.laddrs_mask != 0)).map
      (fun st => st.name)))

/-- Counterexample to C3 as stated: remote LA 0 (a TV), selection
`TAG_POWER_STATUS` only.  The "Standby/Resume and Power Status" group
carries `TAG_POWER_STATUS | TAG_STANDBY_RESUME` (cec-test.cpp:2173):
its tags intersect the selection, so the claim includes its subtest
"Standby" (whose mask contains LA 0), yet the code skips the whole
group because its tag set is not a subset of the selection.  The
"Timer Programming" subtest "Set Analogue Timer" has a recorder-only
mask not containing LA 0, so the claim excludes it, yet the code runs
it.  The executed list and the claim's list are therefore disjoint. -/
def c3Env : DispatchEnv :=
  ⟨0, TAG_POWER_STATUS, true, 1, fun _ => OK_PRESUMED,
    fun _ => false, fun _ => DONT_CARE, fun _ => false⟩

def c3Catalogue : List remote_test :=
  [⟨"Standby/Resume and Power Status", TAG_POWER_STATUS ||| TAG_STANDBY_RESUME,
    [⟨"Standby", CEC_LOG_ADDR_MASK_ALL, false, false⟩]⟩,
   ⟨"Timer Programming feature", TAG_POWER_STATUS,
    [⟨"Set Analogue Timer", CEC_LOG_ADDR_MASK_RECORD, false, false⟩]⟩]

/-- Concrete scenario for C4: a TV remote (LA 0), one selected group
containing a recorder-only subtest (mask without bit 0) that returns
`Pass`, and one all-device subtest that also returns `Pass`. -/
def c4Env : DispatchEnv :=
  ⟨0, 1, true, 1, fun _ => 0, fun _ => false, fun _ => DONT_CARE, fun _ => false⟩

def c4Catalogue : List remote_test :=
  [⟨"One Touch Record feature", 1,
    [⟨"Record TV Screen", CEC_LOG_ADDR_MASK_RECORD, false, false⟩,
     ⟨"Give Physical Address", CEC_LOG_ADDR_MASK_ALL, false, false⟩]⟩]

/-! ### C5: outcome vs. operator expectation -/

/-- Concrete scenario falsifying C5 as stated: no expectation is
declared (`DONT_CARE`) and the subtest returns `NOTAPPLICABLE`. -/
def c5Env : DispatchEnv :=
  ⟨0, 1, true, 1, fun _ => NOTAPPLICABLE, fun _ => false, fun _ => DONT_CARE, fun _ => false⟩

def c5Catalogue : List remote_test :=
  [⟨"Deck Control feature", 1, [⟨"Deck Ctl", CEC_LOG_ADDR_MASK_ALL, false, false⟩]⟩]

/-- Concrete scenario for the amended C5: subtest "exp" is expected to
return `OK` but fails; subtest "warn" matches its expectation but emits
a warning under a declared no-warnings qualifier. -/
def c5bEnv : DispatchEnv :=
  ⟨0, 1, true, 1, fun k => if k = 0 then FAIL else OK,
    fun k => k = 1,
    fun n => if n = "exp" ∨ n = "warn" then OK else DONT_CARE,
    fun n => n = "warn"⟩

def c5bCatalogue : List remote_test :=
  [⟨"Core", 1, [⟨"exp", CEC_LOG_ADDR_MASK_ALL, false, false⟩,
    ⟨"warn", CEC_LOG_ADDR_MASK_ALL, false, false⟩]⟩]

/-! ### C6: catalogue registration (`collectTests`) -/

/-- Association-list model of a `std::map` keyed by strings: first
binding wins on lookup; `mapSet` updates in place or appends. -/
def mapFind {β : Type} : List (String × β) → String → Option β
  | [], _ => none
  | (k0, v0) :: rest, k => if k0 = k then some v0 else mapFind rest k

def mapSet {β : Type} : List (String × β) → String → β → List (String × β)
  | [], k, v => [(k, v)]
  | (k0, v0) :: rest, k, v =>
    if k0 = k then (k0, v) :: rest else (k0, v0) :: mapSet rest k v

/-- Embeds the loop body of `collectTests` (cec-test.cpp:2180-2199)
over the flattened (subtest name, test-function identity) sequence of
the catalogue: a sanitized name already bound to a *different* function
is fatal (`std::exit`, modelled as `none`); otherwise the function,
expectation (`DONT_CARE`) and no-warnings (`false`) maps are updated. -/
def collectTestsGo :
    List (String × Nat) → List (String × Nat) → List (String × Nat) →
      List (String × Bool) →
      Option (List (String × Nat) × List (String × Nat) × List (String × Bool))
  | [], funcs, tmap, wmap => some (funcs, tmap, wmap)
  | (nm, fn) :: rest, funcs, tmap, wmap =>
    if mapFind funcs (safename nm) ≠ none ∧ mapFind funcs (safename nm) ≠ some fn then
      none
    else collectTestsGo rest (mapSet funcs (safename nm) fn)
      (mapSet tmap (safename nm) DONT_CARE) (mapSet wmap (safename nm) false)

/-- `collectTests` on the flattened catalogue, starting from the empty
`mapTestFuncs` / `mapTests` / `mapTestsNoWarnings`. -/
def collectTests (entries : List (String × Nat)) :
    Option (List (String × Nat) × List (String × Nat) × List (String × Bool)) :=
  collectTestsGo entries [] [] []

/-- Registration is conflict-free when no two catalogue entries share a
sanitized name while being bound to different functions, and no entry
collides with an existing binding of the accumulated function map. -/
def conflict_free (funcs : List (String × Nat)) (entries : List (String × Nat)) : Prop :=
  (∀ p ∈ entries, ∀ q ∈ entries, safename p.1 = safename q.1 → p.2 = q.2) ∧
  (∀ p ∈ entries, ∀ f, mapFind funcs (safename p.1) = some f → p.2 = f)

/-! ### C7: the overlapping-timers subtest (`timer_overlap_warning`)

A Set/Clear Analogue Timer transaction's reply is abstracted as the
fields the subtest inspects: whether the bus accepted the transmission,
the timeout/abort classification, the abort reason, the `prog_error`
operand of the Timer Status reply (nonzero ⇔ `timer_has_error`), the
timer-overlap-warning bit, and the Timer Cleared Status operand. -/

structure TimerReply where
  transmit_ok : Bool
  timed_out : Bool
  is_abort : Bool
  abort_reason : Nat
  prog_error : Nat
  overlap_warning : Bool
  cleared_status : Nat
deriving Repr, DecidableEq

/-- Modelled from the spec: reply-classification codes of the external
protocol header (`CEC_OP_ABORT_*`, `CEC_OP_TIMER_CLR_STAT_*`); only
their distinctness matters. -/
def CEC_OP_ABORT_UNRECOGNIZED_OP : Nat := 0

def CEC_OP_ABORT_INVALID_OP : Nat := 3

def CEC_OP_TIMER_CLR_STAT_RECORDING : Nat := 0

def CEC_OP_TIMER_CLR_STAT_NO_MATCHING : Nat := 1

def CEC_OP_TIMER_CLR_STAT_NO_INFO : Nat := 2

def CEC_OP_TIMER_CLR_STAT_CLEARED : Nat := 0x80

/-- Modelled from the spec: the header helper `unrecognized_op` — the
reply is a feature abort whose reason is "unrecognized opcode". -/
def unrecognized_op (r : TimerReply) : Bool :=
  r.is_abort && r.abort_reason == CEC_OP_ABORT_UNRECOGNIZED_OP

/-- Modelled from the spec: the header helper `timed_out_or_abort`. -/
def timed_out_or_abort (r : TimerReply) : Bool :=
  r.timed_out || r.is_abort

/-- Embeds `timer_has_error` (cec-test.cpp:153-168): the Timer Status
reply carries a nonzero `prog_error`. -/
def timer_has_error (r : TimerReply) : Bool :=
  r.prog_error != 0

/-- Embeds `timer_overlap_warning_is_set` (cec-test.cpp:188-204). -/
def timer_overlap_warning_is_set (r : TimerReply) : Bool :=
  r.overlap_warning

/-- Embeds `timer_cleared_status_is_valid` (cec-test.cpp:140-151). -/
def timer_cleared_status_is_valid (r : TimerReply) : Nat :=
  if r.cleared_status ≠ CEC_OP_TIMER_CLR_STAT_RECORDING ∧
      r.cleared_status ≠ CEC_OP_TIMER_CLR_STAT_NO_MATCHING ∧
      r.cleared_status ≠ CEC_OP_TIMER_CLR_STAT_NO_INFO ∧
      r.cleared_status ≠ CEC_OP_TIMER_CLR_STAT_CLEARED then FAIL
  else OK

/-- Embeds `send_timer_overlap` (cec-test.cpp:206-221): the submission
must be accepted without timeout/abort or timer error, and the overlap
warning must be set. -/
def send_timer_overlap_check (r : TimerReply) : Nat :=
  if r.transmit_ok = false then FAIL
  else if timed_out_or_abort r = true then FAIL
  else if timer_has_error r = true then FAIL
  else if timer_overlap_warning_is_set r = false then FAIL
  else OK

/-- Embeds `clear_timer` (cec-test.cpp:223-238). -/
def clear_timer_check (r : TimerReply) : Nat :=
  if r.transmit_ok = false then FAIL
  else if timed_out_or_abort r = true then FAIL
  else if timer_has_error r = true then FAIL
  else if timer_cleared_status_is_valid r ≠ OK then FAIL
  else OK

/-- Embeds the first Set Analogue Timer block of `timer_overlap_warning`
(cec-test.cpp:1861-1872): an unrecognized-opcode abort makes the whole
subtest `OK_NOT_SUPPORTED`, and the overlap warning must *not* be set
for the very first timer. -/
def first_timer_check (r : TimerReply) : Nat :=
  if r.transmit_ok = false then FAIL
  else if unrecognized_op r = true then OK_NOT_SUPPORTED
  else if timed_out_or_abort r = true then FAIL
  else if timer_has_error r = true then FAIL
  else if timer_overlap_warning_is_set r = true then FAIL
  else OK

/-- Embeds the adjacent-timer blocks of `timer_overlap_warning`
(cec-test.cpp:1874-1894): accepted, no error, and the overlap warning
must *not* be set. -/
def adjacent_timer_check (r : TimerReply) : Nat :=
  if r.transmit_ok = false then FAIL
  else if timed_out_or_abort r = true then FAIL
  else if timer_has_error r = true then FAIL
  else if timer_overlap_warning_is_set r = true then FAIL
  else OK

/-- The eight Set Analogue Timer submissions of the subtest, in order,
as (start hour, start minute, duration hours, duration minutes) for
tomorrow's date: the base timer 8:00+2:00, the two merely-adjacent
timers 10:00+0:15 and 7:45+0:15, then the five overlapping timers
9:00+2:00, 7:00+1:30, 8:00+0:30, 9:30+0:30 and 6:00+6:00
(cec-test.cpp:1861-1909). -/
def timer_overlap_submissions : List (Nat × Nat × Nat × Nat) :=
  [(8, 0, 2, 0), (10, 0, 0, 15), (7, 45, 0, 15),
   (9, 0, 2, 0), (7, 0, 1, 30), (8, 0, 0, 30), (9, 30, 0, 30), (6, 0, 6, 0)]

def timer_start_min (s : Nat × Nat × Nat × Nat) : Nat :=
  s.1 * 60 + s.2.1

def timer_end_min (s : Nat × Nat × Nat × Nat) : Nat :=
  s.1 * 60 + s.2.1 + (s.2.2.1 * 60 + s.2.2.2)

/-- Embeds `timer_overlap_warning` (cec-test.cpp:1854-1925): the i-th
transaction's reply is `rs i` — submissions 0..7 in the order of
`timer_overlap_submissions`, then the eight Clear Analogue Timer
transactions 8..15. -/
def timer_overlap_warning_subtest (rs : Nat → TimerReply) : Nat :=
  if first_timer_check (rs 0) ≠ OK then first_timer_check (rs 0)
  else if adjacent_timer_check (rs 1) ≠ OK then FAIL
  else if adjacent_timer_check (rs 2) ≠ OK then FAIL
  else if send_timer_overlap_check (rs 3) ≠ OK then FAIL
  else if send_timer_overlap_check (rs 4) ≠ OK then FAIL
  else if send_timer_overlap_check (rs 5) ≠ OK then FAIL
  else if send_timer_overlap_check (rs 6) ≠ OK then FAIL
  else if send_timer_overlap_check (rs 7) ≠ OK then FAIL
  else if clear_timer_check (rs 8) ≠ OK then FAIL
  else if clear_timer_check (rs 9) ≠ OK then FAIL
  else if clear_timer_check (rs 10) ≠ OK then FAIL
  else if clear_timer_check (rs 11) ≠ OK then FAIL
  else if clear_timer_check (rs 12) ≠ OK then FAIL
  else if clear_timer_check (rs 13) ≠ OK then FAIL
  else if clear_timer_check (rs 14) ≠ OK then FAIL
  else if clear_timer_check (rs 15) ≠ OK then FAIL
  else OK

/-- A transaction that went through cleanly at the transport level:
accepted, no timeout, no abort, no timer error. -/
def timer_reply_nominal (r : TimerReply) : Prop :=
  r.transmit_ok = true ∧ r.timed_out = false ∧ r.is_abort = false ∧ r.prog_error = 0

instance (r : TimerReply) : Decidable (timer_reply_nominal r) := by
  unfold timer_reply_nominal
  infer_instance

/-- Replies of a compliant remote: no warning for the base and the two
adjacent timers, the warning set for the five overlapping timers, and
clean Clear Timer replies. -/
def goodTimerReplies : Nat → TimerReply := fun i =>
  if i < 3 then ⟨true, false, false, 0, 0, false, 0⟩
  else if i < 8 then ⟨true, false, false, 0, 0, true, 0⟩
  else ⟨true, false, false, 0, 0, false, CEC_OP_TIMER_CLR_STAT_CLEARED⟩

/-! ### C9: the core unknown-opcode subtest (`core_unknown`) -/

/-- Reply to one transmitted message, as `core_unknown` inspects it:
whether the bus accepted it, the timeout classification, and — when the
reply is a feature abort — the aborted opcode and abort reason
extracted by `cec_ops_feature_abort`. -/
structure AbortReply where
  transmit_ok : Bool
  timed_out : Bool
  is_abort : Bool
  abort_msg : Nat
  abort_reason : Nat
deriving Repr, DecidableEq

/-- Modelled from the spec: the helper `fail_or_warn` of the missing
`cec-compliance.cpp` — a failure is downgraded to a warning (outcome 0)
when the remote is being tested in standby, and is a plain `FAIL`
otherwise (the pattern is visible at cec-test.cpp:271-272). -/
def fail_or_warn (node_in_standby : Bool) : Nat :=
  if node_in_standby then 0 else FAIL

/-- Embeds `core_unknown` (cec-test.cpp:405-436): the directed unknown
opcode 0xfe must draw a feature abort with reason "unrecognized opcode"
and aborted opcode 0xfe; the broadcast unknown opcode must draw no
reply (time out). -/
def core_unknown (node_in_standby : Bool) (directed bcast : AbortReply) : Nat :=
  if directed.transmit_ok = false ∨ directed.timed_out = true then
    fail_or_warn node_in_standby
  else if directed.is_abort = false then FAIL
  else if directed.abort_reason ≠ CEC_OP_ABORT_UNRECOGNIZED_OP then FAIL
  else if directed.abort_msg ≠ 0xfe then FAIL
  else if bcast.transmit_ok = false then FAIL
  else if bcast.timed_out = false then FAIL
  else 0

/-! ### C10: parsing an operator expectation (`setExpectedResult`) -/

/-- `isdigit` of the C library on the characters that can appear here:
a decimal digit. -/
def isdigit (c : Char) : Bool :=
  '0' ≤ c && c ≤ '9'

def digitVal (c : Char) : Nat :=
  c.toNat - '0'.toNat

def isOctDigit (c : Char) : Bool :=
  '0' ≤ c && c ≤ '7'

def isHexDigit (c : Char) : Bool :=
  isdigit c || ('a' ≤ c && c ≤ 'f') || ('A' ≤ c && c ≤ 'F')

def hexVal (c : Char) : Nat :=
  if isdigit c then digitVal c
  else if 'a' ≤ c && c ≤ 'f' then c.toNat - 'a'.toNat + 10
  else c.toNat - 'A'.toNat + 10

def parseDec : List Char → Nat → Nat
  | [], acc => acc
  | c :: rest, acc => if isdigit c then parseDec rest (acc * 10 + digitVal c) else acc

def parseOct : List Char → Nat → Nat
  | [], acc => acc
  | c :: rest, acc => if isOctDigit c then parseOct rest (acc * 8 + digitVal c) else acc

def parseHex : List Char → Nat → Nat
  | [], acc => acc
  | c :: rest, acc => if isHexDigit c then parseHex rest (acc * 16 + hexVal c) else acc

/-- `strtoul(s, nullptr, 0)` on a string whose first character is a
decimal digit: a `0x`/`0X` prefix selects hexadecimal, a leading `0`
selects octal, otherwise decimal; parsing stops at the first character
invalid in the selected base. -/
def strtoul0 : List Char → Nat
  | '0' :: 'x' :: rest => parseHex rest 0
  | '0' :: 'X' :: rest => parseHex rest 0
  | '0' :: rest => parseOct rest 0
  | s => parseDec s 0

/-- Embeds `setExpectedResult` (cec-test.cpp:2211-2224) on the maps
`mapTests` / `mapTestsNoWarnings`: return 1 (leaving the maps
unchanged) when the argument has no `=`, when `=` is its first
character, when the character right after `=` is not a decimal digit,
or when the sanitized name before `=` is not a registered subtest name;
otherwise store the `strtoul`-parsed value and the no-warnings flag for
that name and return 0. -/
def setExpectedResult (tmap : List (String × Nat)) (wmap : List (String × Bool))
    (optarg : List Char) (no_warnings : Bool) :
    Nat × List (String × Nat) × List (String × Bool) :=
  if optarg.dropWhile (fun c => c != '=') = [] then (1, tmap, wmap)
  else if optarg.takeWhile (fun c => c != '=') = [] then (1, tmap, wmap)
  else if ((((optarg.dropWhile (fun c => c != '=')).drop 1).head?).map isdigit).getD false
      = false then (1, tmap, wmap)
  else if mapFind tmap (safename ⟨optarg.takeWhile (fun c => c != '=')⟩) = none then
    (1, tmap, wmap)
  else (0,
    mapSet tmap (safename ⟨optarg.takeWhile (fun c => c != '=')⟩)
      (strtoul0 ((optarg.dropWhile (fun c => c != '=')).drop 1)),
    mapSet wmap (safename ⟨optarg.takeWhile (fun c => c != '=')⟩) no_warnings)

/-! ## Theorems -/

theorem foldl_or_eq_any (f : Nat → Bool) (l : List Nat) (b : Bool) :
    l.foldl (fun acc i => acc || f i) b = (b || l.any f) := by
  induction l generalizing b with
  | nil => simp
  | cons x xs ih =>
    simp only [List.foldl_cons, List.any_cons, ih]
    cases b <;> cases f x <;> simp

theorem post_test_check_recognized_eq_zero_iff (dev : RemoteDevice) :
    post_test_check_recognized dev = 0 ↔
      ∀ i < 256, ¬(dev.recognized_op i = true ∧ dev.unrecognized_op i = true) := by
  unfold post_test_check_recognized
  simp only [foldl_or_eq_any, Bool.false_or]
  cases hany : (List.range 256).any
      (fun i => dev.recognized_op i && dev.unrecognized_op i) with
  | true =>
    obtain ⟨i, hi, hboth⟩ := List.any_eq_true.mp hany
    rw [List.mem_range] at hi
    rw [Bool.and_eq_true] at hboth
    simp only [if_pos rfl]
    constructor
    · intro hc
      exact absurd hc (by decide)
    · intro hall
      exact absurd ⟨hboth.1, hboth.2⟩ (hall i hi)
  | false =>
    simp only [if_neg (by decide : ¬(false = true))]
    constructor
    · intro _ i hi hboth
      have : (List.range 256).any
          (fun i => dev.recognized_op i && dev.unrecognized_op i) = true :=
        List.any_eq_true.mpr ⟨i, List.mem_range.mpr hi,
          by rw [Bool.and_eq_true]; exact ⟨hboth.1, hboth.2⟩⟩
      rw [hany] at this
      exact absurd this (by decide)
    · intro _
      trivial

/-- C1: the post-run consistency check fails (returns the nonzero
outcome `FAIL`) iff some opcode in 0..255 is marked both recognized and
unrecognized for the remote, and returns `0` exactly when no opcode is
marked both ways. -/
theorem post_test_check_recognized_correct (dev : RemoteDevice) :
    (post_test_check_recognized dev ≠ 0 ↔
      ∃ i < 256, dev.recognized_op i = true ∧ dev.unrecognized_op i = true) ∧
    (post_test_check_recognized dev = 0 ↔
      ∀ i < 256, ¬(dev.recognized_op i = true ∧ dev.unrecognized_op i = true)) := by
  refine ⟨?_, post_test_check_recognized_eq_zero_iff dev⟩
  rw [ne_eq, post_test_check_recognized_eq_zero_iff dev]
  push_neg
  rfl

/-- Closed witness for C1: a tracker marking opcode 5 both ways fails
the check, and the all-clear tracker passes it. -/
theorem post_test_check_recognized_correct_witness :
    post_test_check_recognized ⟨fun i => i == 5, fun i => i == 5⟩ ≠ 0 ∧
    post_test_check_recognized ⟨fun _ => true, fun _ => false⟩ = 0 := by
  constructor
  · exact (post_test_check_recognized_correct ⟨fun i => i == 5, fun i => i == 5⟩).1.mpr
      ⟨5, by decide, by decide, by decide⟩
  · exact (post_test_check_recognized_correct ⟨fun _ => true, fun _ => false⟩).2.mpr
      (fun i _ h => nomatch h.2)

/-- C8 (code bug): for target year 2000 (`tm_year = 100`) the code
applies the Gregorian test to years-since-1900 and concludes "not a
leap year", so it sends February 29 as the invalid-day error case —
yet 2000 is a Gregorian leap year, in which February 29 is a valid day
and the spec requires day 30 to be the error case.  The ÷400 clause the
code itself contains shows the Gregorian rule on the calendar year is
the intent. -/
theorem timer_errors_feb_2000_bug :
    timer_errors_feb_error_day (2000 - 1900) = 29 ∧
    gregorian_leap 2000 = true ∧
    spec_feb_error_day 2000 = 30 ∧
    timer_errors_feb_error_day (2000 - 1900) ≠ spec_feb_error_day 2000 := by
  refine ⟨by decide, by decide, by decide, by decide⟩

/-- The divergence is exactly at century years out of phase with 1900:
for any year below 1900 + 400 that is not a multiple of 100, the code's
selection agrees with the Gregorian one (so the bug is confined to
century years such as 2000, 2300, ...). -/
theorem timer_errors_feb_agrees_off_centuries (year : Nat) (h1 : 1900 ≤ year)
    (h2 : year % 100 ≠ 0) :
    timer_errors_feb_error_day (year - 1900) = spec_feb_error_day year := by
  unfold timer_errors_feb_error_day spec_feb_error_day timer_errors_leap_cond gregorian_leap
  have h4 : (year - 1900) % 4 = year % 4 := by
    omega
  have h100 : (year - 1900) % 100 = year % 100 := by
    omega
  rw [h4, h100]
  have hne : (year % 100 != 0) = true := by
    simp [h2]
  simp [hne]

/-- Closed witness for the agreement theorem: year 2004. -/
theorem timer_errors_feb_agrees_off_centuries_witness :
    timer_errors_feb_error_day (2004 - 1900) = spec_feb_error_day 2004 :=
  timer_errors_feb_agrees_off_centuries 2004 (by decide) (by decide)

theorem runSubtests_spec (env : DispatchEnv) (l : List remote_subtest) (k : Nat) :
    ((runSubtests env l k).2.2 = false →
      (runSubtests env l k).1 = (allEligibleGroup env l k).1 ∧
      (runSubtests env l k).2.1 = (allEligibleGroup env l k).2 ∧
      ∀ e ∈ (runSubtests env l k).1, e.ret ≠ FAIL_CRITICAL) ∧
    ((runSubtests env l k).2.2 = true →
      (runSubtests env l k).1 <+: (allEligibleGroup env l k).1 ∧
      (∀ e ∈ (runSubtests env l k).1.dropLast, e.ret ≠ FAIL_CRITICAL) ∧
      ∃ pre e, (runSubtests env l k).1 = pre ++ [e] ∧ e.ret = FAIL_CRITICAL) := by
  induction l generalizing k with
  | nil =>
    constructor
    · intro _
      exact ⟨rfl, rfl, fun e he => absurd he (List.not_mem_nil e)⟩
    · intro h
      exact absurd h (by simp [runSubtests])
  | cons st rest ih =>
    by_cases hskip : (st.for_cec20 = true ∧ env.cec20_ok = false) ∨
        (st.in_standby = true ∧ env.laddrs_mask = 0)
    · simp only [runSubtests, allEligibleGroup, if_pos hskip]
      exact ih k
    · simp only [runSubtests, allEligibleGroup, if_neg hskip]
      by_cases hcrit : subtest_ret env st k = FAIL_CRITICAL
      · simp only [if_pos hcrit]
        constructor
        · intro h
          exact absurd h (by simp)
        · intro _
          refine ⟨⟨(allEligibleGroup env rest (k + 1)).1, rfl⟩, ?_, [], mkEntry env st k,
            rfl, hcrit⟩
          intro e he
          exact absurd he (List.not_mem_nil e)
      · simp only [if_neg hcrit]
        rcases hflag : (runSubtests env rest (k + 1)).2.2 with _ | _
        · obtain ⟨heq, hctr, hnc⟩ := (ih (k + 1)).1 hflag
          constructor
          · intro _
            refine ⟨by rw [heq], by rw [hctr], ?_⟩
            intro e he
            rcases List.mem_cons.mp he with h | h
            · rw [h]; exact hcrit
            · exact hnc e h
          · intro h
            exact absurd h (by decide)
        · obtain ⟨hpre, hdrop, pre, e, heq, hret⟩ := (ih (k + 1)).2 hflag
          constructor
          · intro h
            exact absurd h (by decide)
          · intro _
            obtain ⟨t, ht⟩ := hpre
            refine ⟨⟨t, by simp only [List.cons_append, ht]⟩, ?_, ?_⟩
            · intro x hx
              rw [heq, ← List.cons_append, List.dropLast_concat] at hx
              rcases List.mem_cons.mp hx with h | h
              · rw [h]; exact hcrit
              · rw [heq, List.dropLast_concat] at hdrop
                exact hdrop x h
            · refine ⟨mkEntry env st k :: pre, e, ?_, hret⟩
              rw [heq, List.cons_append]

theorem append_prefix_append {α : Type} (l : List α) {a b : List α} (h : a <+: b) :
    l ++ a <+: l ++ b := by
  obtain ⟨t, ht⟩ := h
  exact ⟨t, by rw [List.append_assoc, ht]⟩

theorem testRemoteGroups_spec (env : DispatchEnv) (ts : List remote_test) (k : Nat) :
    ((testRemoteGroups env ts k).flatten <+: allEligible env ts k) ∧
    (∀ e ∈ (testRemoteGroups env ts k).flatten.dropLast, e.ret ≠ FAIL_CRITICAL) ∧
    ((testRemoteGroups env ts k).flatten = allEligible env ts k ∨
      ∃ pre e, (testRemoteGroups env ts k).flatten = pre ++ [e] ∧
        e.ret = FAIL_CRITICAL) := by
  induction ts generalizing k with
  | nil =>
    refine ⟨⟨[], rfl⟩, ?_, Or.inl rfl⟩
    intro e he
    exact absurd he (List.not_mem_nil e)
  | cons g rest ih =>
    by_cases htag : g.tags &&& env.test_tags ≠ g.tags
    · simp only [testRemoteGroups, allEligible, if_pos htag]
      exact ih k
    · simp only [testRemoteGroups, allEligible, if_neg htag]
      by_cases hflag : (runSubtests env g.subtests k).2.2 = true
      swap
      · have hflag0 : (runSubtests env g.subtests k).2.2 = false := by
          rcases h2 : (runSubtests env g.subtests k).2.2 with _ | _
          · rfl
          · exact absurd h2 hflag
        obtain ⟨heq, hctr, hnc⟩ := (runSubtests_spec env g.subtests k).1 hflag0
        rw [if_neg hflag]
        simp only [List.flatten_cons]
        obtain ⟨ihpre, ihdrop, ihdisj⟩ := ih (runSubtests env g.subtests k).2.1
        rw [heq, hctr] at *
        refine ⟨append_prefix_append _ ihpre, ?_, ?_⟩
        · intro e he
          rcases heq2 : (testRemoteGroups env rest
              (allEligibleGroup env g.subtests k).2).flatten with _ | _
          · rw [heq2, List.append_nil] at he
            have hmem := List.dropLast_subset _ he
            rw [heq] at hmem
            exact hnc e hmem
          · rw [List.dropLast_append_of_ne_nil _ (by rw [heq2]; exact List.cons_ne_nil _ _)]
              at he
            rcases List.mem_append.mp he with h | h
            · rw [heq] at h
              exact hnc e h
            · exact ihdrop e h
        · rcases ihdisj with h | ⟨pre, e, hpe, hret⟩
          · exact Or.inl (by rw [h])
          · exact Or.inr ⟨(allEligibleGroup env g.subtests k).1 ++ pre, e,
              by rw [hpe, List.append_assoc], hret⟩
      · obtain ⟨hpre, hdrop, pre, e, hpe, hret⟩ := (runSubtests_spec env g.subtests k).2 hflag
        rw [if_pos hflag]
        simp only [List.flatten_cons, List.flatten_nil, List.append_nil]
        refine ⟨hpre.trans (List.prefix_append ..), hdrop, Or.inr ⟨pre, e, hpe, hret⟩⟩

theorem entry_wf_mkEntry (env : DispatchEnv) (st : remote_subtest) (k : Nat) :
    entry_wf env (mkEntry env st k) :=
  ⟨rfl, rfl⟩

theorem runSubtests_wf (env : DispatchEnv) (l : List remote_subtest) (k : Nat) :
    ∀ e ∈ (runSubtests env l k).1, entry_wf env e := by
  induction l generalizing k with
  | nil =>
    intro e he
    exact absurd he (List.not_mem_nil e)
  | cons st rest ih =>
    intro e he
    by_cases hskip : (st.for_cec20 = true ∧ env.cec20_ok = false) ∨
        (st.in_standby = true ∧ env.laddrs_mask = 0)
    · rw [runSubtests, if_pos hskip] at he
      exact ih k e he
    · by_cases hcrit : subtest_ret env st k = FAIL_CRITICAL
      · rw [runSubtests, if_neg hskip, if_pos hcrit] at he
        rw [List.mem_singleton.mp he]
        exact entry_wf_mkEntry env st k
      · rw [runSubtests, if_neg hskip, if_neg hcrit] at he
        rcases List.mem_cons.mp he with h | h
        · rw [h]
          exact entry_wf_mkEntry env st k
        · exact ih (k + 1) e h

theorem testRemoteGroups_wf (env : DispatchEnv) (ts : List remote_test) (k : Nat) :
    ∀ e ∈ (testRemoteGroups env ts k).flatten, entry_wf env e := by
  induction ts generalizing k with
  | nil =>
    intro e he
    exact absurd he (List.not_mem_nil e)
  | cons g rest ih =>
    intro e he
    by_cases htag : g.tags &&& env.test_tags ≠ g.tags
    · rw [testRemoteGroups, if_pos htag] at he
      exact ih k e he
    · rw [testRemoteGroups, if_neg htag] at he
      by_cases hflag : (runSubtests env g.subtests k).2.2 = true
      · rw [if_pos hflag] at he
        simp only [List.flatten_cons, List.flatten_nil, List.append_nil] at he
        exact runSubtests_wf env g.subtests k e he
      · rw [if_neg hflag] at he
        simp only [List.flatten_cons] at he
        rcases List.mem_append.mp he with h | h
        · exact runSubtests_wf env g.subtests k e h
        · exact ih _ e h

/-- C2: in the dispatcher loop, a `FAIL_CRITICAL` outcome halts the run
— every executed subtest except possibly the very last one had a
non-critical outcome — and any other outcome lets the loop continue:
the executed trace is a prefix of the full eligible run, and it falls
short of the full run only when its last entry is `FAIL_CRITICAL`. -/
theorem testRemote_critical_halts (env : DispatchEnv) (ts : List remote_test) :
    (∀ e ∈ (testRemoteTrace env ts).dropLast, e.ret ≠ FAIL_CRITICAL) ∧
    (testRemoteTrace env ts <+: allEligible env ts 0) ∧
    (testRemoteTrace env ts = allEligible env ts 0 ∨
      ∃ pre e, testRemoteTrace env ts = pre ++ [e] ∧ e.ret = FAIL_CRITICAL) :=
  ⟨(testRemoteGroups_spec env ts 0).2.1, (testRemoteGroups_spec env ts 0).1,
    (testRemoteGroups_spec env ts 0).2.2⟩

/-- Closed witness for C2: in the concrete critical scenario the trace
stops right after the critical subtest — subtest "c" is never run even
though it is eligible — and the one entry before the critical one is
non-critical. -/
theorem testRemote_critical_halts_witness :
    ((testRemoteTrace critEnv critCatalogue).map SubtestRun.name = ["a", "b"] ∧
      (allEligible critEnv critCatalogue 0).map SubtestRun.name = ["a", "b", "c"]) ∧
    (mkEntry critEnv ⟨"a", 0xffff, false, false⟩ 0).ret ≠ FAIL_CRITICAL := by
  constructor
  · exact ⟨by decide, by decide⟩
  · exact (testRemote_critical_halts critEnv critCatalogue).1
      (mkEntry critEnv ⟨"a", 0xffff, false, false⟩ 0) (by decide)

theorem skip_cond_iff (env : DispatchEnv) (st : remote_subtest) :
    ((!st.for_cec20 || env.cec20_ok) && (!st.in_standby || env.laddrs_mask != 0)) = false ↔
      (st.for_cec20 = true ∧ env.cec20_ok = false) ∨
        (st.in_standby = true ∧ env.laddrs_mask = 0) := by
  by_cases hl : env.laddrs_mask = 0
  · cases hf : st.for_cec20 <;> cases hc : env.cec20_ok <;> cases hs : st.in_standby <;>
      simp [hl]
  · cases hf : st.for_cec20 <;> cases hc : env.cec20_ok <;> cases hs : st.in_standby <;>
      simp [hl]

theorem allEligibleGroup_names (env : DispatchEnv) (l : List remote_subtest) (k : Nat) :
    ((allEligibleGroup env l k).1).map SubtestRun.name =
      (l.filter fun st => (!st.for_cec20 || env.cec20_ok) &&
        (!st.in_standby || env.laddrs_mask != 0)).map (fun st => st.name) := by
  induction l generalizing k with
  | nil => rfl
  | cons st rest ih =>
    by_cases hskip : (st.for_cec20 = true ∧ env.cec20_ok = false) ∨
        (st.in_standby = true ∧ env.laddrs_mask = 0)
    · rw [allEligibleGroup, if_pos hskip, List.filter_cons_of_neg
        (by rw [Bool.not_eq_true, skip_cond_iff]; exact hskip)]
      exact ih k
    · rw [allEligibleGroup, if_neg hskip, List.filter_cons_of_pos ?hpos]
      case hpos =>
        rcases hb : (!st.for_cec20 || env.cec20_ok) &&
            (!st.in_standby || env.laddrs_mask != 0) with _ | _
        · exact absurd ((skip_cond_iff env st).mp hb) hskip
        · rfl
      simp only [List.map_cons]
      rw [ih (k + 1)]
      rfl

theorem allEligible_names (env : DispatchEnv) (ts : List remote_test) (k : Nat) :
    (allEligible env ts k).map SubtestRun.name = code_selected_names env ts := by
  induction ts generalizing k with
  | nil => rfl
  | cons g rest ih =>
    by_cases htag : g.tags &&& env.test_tags ≠ g.tags
    · rw [allEligible, if_pos htag]
      rw [code_selected_names, List.filter_cons_of_neg (by simpa using htag)]
      exact ih k
    · rw [allEligible, if_neg htag]
      rw [code_selected_names, List.filter_cons_of_pos
        (by simpa using not_not.mp htag)]
      simp only [List.flatMap_cons, List.map_append]
      rw [allEligibleGroup_names, ih]
      rfl

/-- Counterexample theorem for C3: on the concrete catalogue the
dispatcher runs exactly ["Set Analogue Timer"], while the claim's
selection rule (tag intersection plus applicability-mask filter) picks
exactly ["Standby"]. -/
theorem testRemote_selection_claim_false :
    (testRemoteTrace c3Env c3Catalogue).map SubtestRun.name = ["Set Analogue Timer"] ∧
    claim_selected_names c3Env c3Catalogue = ["Standby"] ∧
    c3Catalogue.head?.map remote_test.tags = some (TAG_POWER_STATUS ||| TAG_STANDBY_RESUME) ∧
    (TAG_POWER_STATUS ||| TAG_STANDBY_RESUME) &&& c3Env.test_tags ≠ 0 := by
  exact ⟨by decide, by decide, by decide, by decide⟩

/-- C3 amended: for one (local, remote) pair the dispatcher runs, in
catalogue order, exactly the subtests of the feature groups whose tag
set is a *subset* of the selected tags, keeping every subtest whose
`for_cec20`/`in_standby` qualifiers are met regardless of its
applicability mask (the mask only escalates outcomes) — provided no
executed subtest ends in `FAIL_CRITICAL`, which would cut the run
short. -/
theorem testRemote_selection_amended (env : DispatchEnv) (ts : List remote_test)
    (h : ∀ e ∈ testRemoteTrace env ts, e.ret ≠ FAIL_CRITICAL) :
    (testRemoteTrace env ts).map SubtestRun.name = code_selected_names env ts := by
  rcases (testRemoteGroups_spec env ts 0).2.2 with heq | ⟨pre, e, hpe, hret⟩
  · rw [testRemoteTrace] at *
    rw [heq, allEligible_names]
  · exfalso
    refine h e ?_ hret
    rw [testRemoteTrace, hpe]
    exact List.mem_append.mpr (Or.inr (List.mem_singleton_self e))

/-- Closed witness for the amended C3 theorem, on a critical-free
concrete run. -/
theorem testRemote_selection_amended_witness :
    (testRemoteTrace c3Env c3Catalogue).map SubtestRun.name =
      code_selected_names c3Env c3Catalogue :=
  testRemote_selection_amended c3Env c3Catalogue (by decide)

/-- C4: for every subtest the dispatcher executes, a nominally
successful outcome (`test_fn` returned 0) is escalated to
`OK_UNEXPECTED` exactly when the subtest's applicability mask does not
contain the remote logical address; when the mask does contain the
remote address, or the raw outcome was not a nominal success, the
outcome is recorded unchanged. -/
theorem testRemote_escalation (env : DispatchEnv) (ts : List remote_test) :
    ∀ e ∈ testRemoteTrace env ts,
      (e.la_mask &&& (1 <<< env.la) = 0 → e.raw = 0 → e.ret = OK_UNEXPECTED) ∧
      (e.la_mask &&& (1 <<< env.la) ≠ 0 → e.ret = e.raw) ∧
      (e.raw ≠ 0 → e.ret = e.raw) := by
  intro e he
  obtain ⟨hret, _⟩ := testRemoteGroups_wf env ts 0 e he
  refine ⟨?_, ?_, ?_⟩
  · intro h1 h2
    rw [hret, if_pos ⟨h1, h2⟩]
  · intro h1
    rw [hret, if_neg (fun hc => h1 hc.1)]
  · intro h1
    rw [hret, if_neg (fun hc => h1 hc.2)]

/-- Closed witness for C4: the recorder-only subtest's `Pass` against
the TV remote is recorded as `OK_UNEXPECTED`, while the all-device
subtest's `Pass` is recorded unchanged. -/
theorem testRemote_escalation_witness :
    (mkEntry c4Env ⟨"Record TV Screen", CEC_LOG_ADDR_MASK_RECORD, false, false⟩ 0).ret =
      OK_UNEXPECTED ∧
    (mkEntry c4Env ⟨"Give Physical Address", CEC_LOG_ADDR_MASK_ALL, false, false⟩ 1).ret =
      (mkEntry c4Env ⟨"Give Physical Address", CEC_LOG_ADDR_MASK_ALL, false, false⟩ 1).raw := by
  constructor
  · exact (testRemote_escalation c4Env c4Catalogue _ (by decide)).1 (by decide) (by decide)
  · exact (testRemote_escalation c4Env c4Catalogue _ (by decide)).2.1 (by decide)

/-- Counterexample theorem for C5: with no declared expectation the
subtest runs and its raw outcome is `NOTAPPLICABLE`, but no report line
is produced at all (`reported = none`), contradicting "a subtest with
no declared expectation is reported with its raw outcome". -/
theorem testRemote_report_claim_false :
    testRemoteTrace c5Env c5Catalogue =
      [⟨"Deck Ctl", CEC_LOG_ADDR_MASK_ALL, NOTAPPLICABLE, NOTAPPLICABLE, false, none⟩] ∧
    c5Env.expected (safename "Deck Ctl") = DONT_CARE := by
  exact ⟨by decide, by decide⟩

/-- C5 amended: for every executed subtest, an outcome differing from a
declared expectation is reported as `FAIL` even if nominally passing;
an outcome matching the expectation but with warnings under a declared
no-warnings qualifier is also reported as `FAIL`; with no declared
expectation (`DONT_CARE`) the subtest is reported with its (escalated)
outcome — except that a `NOTAPPLICABLE` outcome produces no report
line. -/
theorem testRemote_expectation_check (env : DispatchEnv) (ts : List remote_test) :
    ∀ e ∈ testRemoteTrace env ts,
      (env.expected (safename e.name) ≠ DONT_CARE →
        e.ret ≠ env.expected (safename e.name) → e.reported = some FAIL) ∧
      (env.expected (safename e.name) ≠ DONT_CARE →
        e.ret = env.expected (safename e.name) → e.warned = true →
        env.noWarnings (safename e.name) = true → e.reported = some FAIL) ∧
      (env.expected (safename e.name) = DONT_CARE → e.ret ≠ NOTAPPLICABLE →
        e.reported = some e.ret) ∧
      (env.expected (safename e.name) = DONT_CARE → e.ret = NOTAPPLICABLE →
        e.reported = none) := by
  intro e he
  obtain ⟨_, hrep⟩ := testRemoteGroups_wf env ts 0 e he
  rw [hrep, report_line]
  refine ⟨?_, ?_, ?_, ?_⟩
  · intro h1 h2
    rw [if_pos h1, if_pos h2]
  · intro h1 h2 h3 h4
    rw [if_pos h1, if_neg (fun hc => hc h2), if_pos ⟨h3, h4⟩]
  · intro h1 h2
    rw [if_neg (fun hc => hc h1), if_pos h2]
  · intro h1 h2
    rw [if_neg (fun hc => hc h1), if_neg (fun hc => hc h2)]

/-- Closed witness for the amended C5 theorem: the mismatching subtest
and the unexpected-warnings subtest are both reported as `FAIL`. -/
theorem testRemote_expectation_check_witness :
    (mkEntry c5bEnv ⟨"exp", CEC_LOG_ADDR_MASK_ALL, false, false⟩ 0).reported = some FAIL ∧
    (mkEntry c5bEnv ⟨"warn", CEC_LOG_ADDR_MASK_ALL, false, false⟩ 1).reported = some FAIL := by
  constructor
  · exact (testRemote_expectation_check c5bEnv c5bCatalogue _ (by decide)).1
      (by decide) (by decide)
  · exact (testRemote_expectation_check c5bEnv c5bCatalogue _ (by decide)).2.1
      (by decide) (by decide) (by decide) (by decide)

theorem mapFind_mapSet_self {β : Type} (m : List (String × β)) (k : String) (v : β) :
    mapFind (mapSet m k v) k = some v := by
  induction m with
  | nil => simp [mapSet, mapFind]
  | cons p rest ih =>
    by_cases h : p.1 = k
    · rw [show p = (p.1, p.2) from rfl, mapSet, if_pos h, mapFind, if_pos h]
    · rw [show p = (p.1, p.2) from rfl, mapSet, if_neg h, mapFind, if_neg h]
      exact ih

theorem mapFind_mapSet_ne {β : Type} (m : List (String × β)) {k k' : String} (v : β)
    (h : k' ≠ k) : mapFind (mapSet m k v) k' = mapFind m k' := by
  induction m with
  | nil =>
    rw [mapSet]
    simp only [mapFind]
    rw [if_neg (show ¬(k = k') from fun hc => h hc.symm)]
  | cons p rest ih =>
    by_cases h0 : p.1 = k
    · rw [show p = (p.1, p.2) from rfl, mapSet, if_pos h0, mapFind, mapFind]
      have : ¬p.1 = k' := fun hc => h (hc ▸ h0)
      rw [if_neg this, if_neg this]
    · rw [show p = (p.1, p.2) from rfl, mapSet, if_neg h0, mapFind, mapFind]
      by_cases h1 : p.1 = k'
      · rw [if_pos h1, if_pos h1]
      · rw [if_neg h1, if_neg h1]
        exact ih

theorem conflict_free_cons_iff (funcs : List (String × Nat)) (nm : String) (fn : Nat)
    (rest : List (String × Nat))
    (hbranch : mapFind funcs (safename nm) = none ∨
      mapFind funcs (safename nm) = some fn) :
    conflict_free funcs ((nm, fn) :: rest) ↔
      conflict_free (mapSet funcs (safename nm) fn) rest := by
  constructor
  · rintro ⟨hpair, hacc⟩
    refine ⟨fun p hp q hq => hpair p (List.mem_cons_of_mem _ hp) q (List.mem_cons_of_mem _ hq),
      fun p hp f hf => ?_⟩
    by_cases hn : safename p.1 = safename nm
    · rw [hn, mapFind_mapSet_self] at hf
      cases hf
      exact hpair p (List.mem_cons_of_mem _ hp) (nm, fn) (List.mem_cons_self _ _) hn
    · rw [mapFind_mapSet_ne _ _ hn] at hf
      exact hacc p (List.mem_cons_of_mem _ hp) f hf
  · rintro ⟨hpair, hacc⟩
    constructor
    · intro p hp q hq hname
      rcases List.mem_cons.mp hp with hp1 | hp1 <;> rcases List.mem_cons.mp hq with hq1 | hq1
      · rw [hp1, hq1]
      · rw [hp1]
        rw [hp1] at hname
        exact (hacc q hq1 fn (by rw [← hname, mapFind_mapSet_self])).symm
      · rw [hq1]
        rw [hq1] at hname
        exact hacc p hp1 fn (by rw [hname, mapFind_mapSet_self])
      · exact hpair p hp1 q hq1 hname
    · intro p hp f hf
      rcases List.mem_cons.mp hp with hp1 | hp1
      · rw [hp1] at hf ⊢
        rcases hbranch with hb | hb
        · rw [hb] at hf
          cases hf
        · rw [hb] at hf
          cases hf
          rfl
      · by_cases hn : safename p.1 = safename nm
        · have := hacc p hp1 fn (by rw [hn, mapFind_mapSet_self])
          rcases hbranch with hb | hb
        -- when the accumulator had no binding, hf is impossible via hn ▸ hb
          · rw [hn, hb] at hf
            cases hf
          · rw [hn, hb] at hf
            cases hf
            exact this
        · exact hacc p hp1 f (by rw [mapFind_mapSet_ne funcs fn hn]; exact hf)

theorem collectTestsGo_none_iff (entries : List (String × Nat))
    (funcs tmap : List (String × Nat)) (wmap : List (String × Bool)) :
    collectTestsGo entries funcs tmap wmap = none ↔ ¬conflict_free funcs entries := by
  induction entries generalizing funcs tmap wmap with
  | nil =>
    simp only [collectTestsGo]
    constructor
    · intro h
      cases h
    · intro h
      exact absurd ⟨fun p hp => absurd hp (List.not_mem_nil p),
        fun p hp => absurd hp (List.not_mem_nil p)⟩ h
  | cons e rest ih =>
    obtain ⟨nm, fn⟩ := e
    rcases hb : mapFind funcs (safename nm) with _ | f
    · rw [collectTestsGo, if_neg (fun hc => hc.1 hb)]
      rw [ih, conflict_free_cons_iff funcs nm fn rest (Or.inl hb)]
    · by_cases hne : f ≠ fn
      · rw [collectTestsGo,
          if_pos ⟨by rw [hb]; exact fun hc => Option.noConfusion hc,
            by rw [hb]; exact fun hc => hne (Option.some.inj hc)⟩]
        constructor
        · intro _ hcf
          exact hne ((hcf.2 (nm, fn) (List.mem_cons_self _ _) f hb).symm)
        · intro _
          rfl
      · have hf : f = fn := not_not.mp hne
        rw [collectTestsGo, if_neg (fun hc => hc.2 (by rw [hb, hf]))]
        rw [ih, conflict_free_cons_iff funcs nm fn rest (Or.inr (by rw [hb, hf]))]

theorem collectTestsGo_tmap_mono (entries : List (String × Nat))
    (funcs tmap : List (String × Nat)) (wmap : List (String × Bool))
    (f t : List (String × Nat)) (w : List (String × Bool)) (key : String)
    (hgo : collectTestsGo entries funcs tmap wmap = some (f, t, w))
    (ht : mapFind tmap key = some DONT_CARE) (hw : mapFind wmap key = some false) :
    mapFind t key = some DONT_CARE ∧ mapFind w key = some false := by
  induction entries generalizing funcs tmap wmap with
  | nil =>
    rw [collectTestsGo] at hgo
    cases hgo
    exact ⟨ht, hw⟩
  | cons e rest ih =>
    obtain ⟨nm, fn⟩ := e
    have hpres : mapFind (mapSet tmap (safename nm) DONT_CARE) key = some DONT_CARE := by
      by_cases hk : key = safename nm
      · rw [hk, mapFind_mapSet_self]
      · rw [mapFind_mapSet_ne _ _ hk]
        exact ht
    have hpresw : mapFind (mapSet wmap (safename nm) false) key = some false := by
      by_cases hk : key = safename nm
      · rw [hk, mapFind_mapSet_self]
      · rw [mapFind_mapSet_ne _ _ hk]
        exact hw
    by_cases hcond : mapFind funcs (safename nm) ≠ none ∧
        mapFind funcs (safename nm) ≠ some fn
    · rw [collectTestsGo, if_pos hcond] at hgo
      cases hgo
    · rw [collectTestsGo, if_neg hcond] at hgo
      exact ih _ _ _ hgo hpres hpresw

theorem collectTestsGo_registers (entries : List (String × Nat))
    (funcs tmap : List (String × Nat)) (wmap : List (String × Bool))
    (f t : List (String × Nat)) (w : List (String × Bool))
    (hgo : collectTestsGo entries funcs tmap wmap = some (f, t, w)) :
    ∀ p ∈ entries, mapFind t (safename p.1) = some DONT_CARE ∧
      mapFind w (safename p.1) = some false := by
  induction entries generalizing funcs tmap wmap with
  | nil =>
    intro p hp
    exact absurd hp (List.not_mem_nil p)
  | cons e rest ih =>
    obtain ⟨nm, fn⟩ := e
    intro p hp
    have step : ∀ hgo2 : collectTestsGo rest (mapSet funcs (safename nm) fn)
        (mapSet tmap (safename nm) DONT_CARE) (mapSet wmap (safename nm) false) =
          some (f, t, w),
        mapFind t (safename p.1) = some DONT_CARE ∧ mapFind w (safename p.1) = some false := by
      intro hgo2
      rcases List.mem_cons.mp hp with hp1 | hp1
      · rw [hp1]
        exact collectTestsGo_tmap_mono rest _ _ _ f t w (safename nm) hgo2
          (mapFind_mapSet_self ..) (mapFind_mapSet_self ..)
      · exact ih _ _ _ hgo2 p hp1
    by_cases hcond : mapFind funcs (safename nm) ≠ none ∧
        mapFind funcs (safename nm) ≠ some fn
    · rw [collectTestsGo, if_pos hcond] at hgo
      cases hgo
    · rw [collectTestsGo, if_neg hcond] at hgo
      exact step hgo

/-- C6: catalogue registration exits fatally iff two entries share a
sanitized subtest name but are bound to different test functions (same
name with the same function is accepted), and after a successful
registration every catalogue name is present in the expectation map
bound to `DONT_CARE` with the no-warnings flag `false`. -/
theorem collectTests_correct (entries : List (String × Nat)) :
    (collectTests entries = none ↔
      ∃ p ∈ entries, ∃ q ∈ entries, safename p.1 = safename q.1 ∧ p.2 ≠ q.2) ∧
    (∀ f t w, collectTests entries = some (f, t, w) →
      ∀ p ∈ entries, mapFind t (safename p.1) = some DONT_CARE ∧
        mapFind w (safename p.1) = some false) := by
  constructor
  · rw [collectTests, collectTestsGo_none_iff]
    unfold conflict_free
    constructor
    · intro h
      by_contra hex
      push_neg at hex
      refine h ⟨fun p hp q hq hname => ?_, fun p hp f hf => ?_⟩
      · exact hex p hp q hq hname
      · rw [mapFind] at hf
        cases hf
    · rintro ⟨p, hp, q, hq, hname, hfn⟩ ⟨hpair, _⟩
      exact hfn (hpair p hp q hq hname)
  · intro f t w hgo
    exact collectTestsGo_registers entries [] [] [] f t w hgo

/-- Closed witness for C6, using the actual duplicate of the catalogue:
`dev_menu_ctl_subtests` re-registers "User Control Pressed" and
"User Control Released" with the same functions as
`rc_passthrough_subtests` (cec-test.cpp:784-785, 815-816), which is
accepted; binding "User Control Pressed" to a different function is
fatal; and after the successful registration both names map to
`DONT_CARE` / no-warnings `false`. -/
theorem collectTests_correct_witness :
    collectTests [("User Control Pressed", 10), ("User Control Released", 11),
      ("User Control Pressed", 10)] ≠ none ∧
    collectTests [("User Control Pressed", 10), ("User Control Released", 11),
      ("User Control Pressed", 12)] = none ∧
    (∀ f t w, collectTests [("User Control Pressed", 10), ("User Control Released", 11),
        ("User Control Pressed", 10)] = some (f, t, w) →
      mapFind t (safename "User Control Pressed") = some DONT_CARE ∧
        mapFind w (safename "User Control Pressed") = some false) := by
  refine ⟨?_, ?_, ?_⟩
  · intro hnone
    have := (collectTests_correct [("User Control Pressed", 10),
      ("User Control Released", 11), ("User Control Pressed", 10)]).1.mp hnone
    revert this
    decide
  · exact (collectTests_correct [("User Control Pressed", 10),
      ("User Control Released", 11), ("User Control Pressed", 12)]).1.mpr
      ⟨("User Control Pressed", 10), by decide, ("User Control Pressed", 12), by decide,
        by decide, by decide⟩
  · intro f t w hgo
    exact ((collectTests_correct _).2 f t w hgo ("User Control Pressed", 10) (by decide))

theorem first_timer_check_nominal (r : TimerReply) (h : timer_reply_nominal r) :
    first_timer_check r = if r.overlap_warning = true then FAIL else OK := by
  obtain ⟨h1, h2, h3, h4⟩ := h
  simp [first_timer_check, unrecognized_op, timed_out_or_abort, timer_has_error,
    timer_overlap_warning_is_set, h1, h2, h3, h4]

theorem adjacent_timer_check_nominal (r : TimerReply) (h : timer_reply_nominal r) :
    adjacent_timer_check r = if r.overlap_warning = true then FAIL else OK := by
  obtain ⟨h1, h2, h3, h4⟩ := h
  simp [adjacent_timer_check, timed_out_or_abort, timer_has_error,
    timer_overlap_warning_is_set, h1, h2, h3, h4]

theorem send_timer_overlap_check_nominal (r : TimerReply) (h : timer_reply_nominal r) :
    send_timer_overlap_check r = if r.overlap_warning = false then FAIL else OK := by
  obtain ⟨h1, h2, h3, h4⟩ := h
  simp [send_timer_overlap_check, timed_out_or_abort, timer_has_error,
    timer_overlap_warning_is_set, h1, h2, h3, h4]

theorem clear_timer_check_nominal (r : TimerReply) (h : timer_reply_nominal r)
    (hv : timer_cleared_status_is_valid r = OK) : clear_timer_check r = OK := by
  obtain ⟨h1, h2, h3, h4⟩ := h
  simp [clear_timer_check, timed_out_or_abort, timer_has_error, h1, h2, h3, h4, hv]

/-- C7: provided every transaction of the subtest is clean at the
transport level (accepted, no timeout/abort, no timer error, valid
cleared status), the subtest returns either `OK` or `FAIL`, and it
returns `OK` exactly when the remote reported *no* overlap warning for
the base timer and the two merely-adjacent timers (submissions 0-2)
and *did* report the overlap warning for all five genuinely
overlapping timers (submissions 3-7).  The accompanying arithmetic
facts pin down the geometry: submissions 1 and 2 touch the base timer
exactly at an endpoint, while submissions 3-7 each share an interior
point with it. -/
theorem timer_overlap_warning_correct (rs : Nat → TimerReply)
    (hnominal : ∀ i < 16, timer_reply_nominal (rs i))
    (hclr : ∀ i, 8 ≤ i → i < 16 → timer_cleared_status_is_valid (rs i) = OK) :
    (timer_overlap_warning_subtest rs = OK ∨ timer_overlap_warning_subtest rs = FAIL) ∧
    (timer_overlap_warning_subtest rs = OK ↔
      ((rs 0).overlap_warning = false ∧ (rs 1).overlap_warning = false ∧
       (rs 2).overlap_warning = false ∧ (rs 3).overlap_warning = true ∧
       (rs 4).overlap_warning = true ∧ (rs 5).overlap_warning = true ∧
       (rs 6).overlap_warning = true ∧ (rs 7).overlap_warning = true)) ∧
    ((timer_end_min (8, 0, 2, 0) = timer_start_min (10, 0, 0, 15) ∧
      timer_end_min (7, 45, 0, 15) = timer_start_min (8, 0, 2, 0)) ∧
     ∀ s ∈ timer_overlap_submissions.drop 3,
       timer_start_min (8, 0, 2, 0) < timer_end_min s ∧
       timer_start_min s < timer_end_min (8, 0, 2, 0)) := by
  have e0 := first_timer_check_nominal (rs 0) (hnominal 0 (by decide))
  have e1 := adjacent_timer_check_nominal (rs 1) (hnominal 1 (by decide))
  have e2 := adjacent_timer_check_nominal (rs 2) (hnominal 2 (by decide))
  have e3 := send_timer_overlap_check_nominal (rs 3) (hnominal 3 (by decide))
  have e4 := send_timer_overlap_check_nominal (rs 4) (hnominal 4 (by decide))
  have e5 := send_timer_overlap_check_nominal (rs 5) (hnominal 5 (by decide))
  have e6 := send_timer_overlap_check_nominal (rs 6) (hnominal 6 (by decide))
  have e7 := send_timer_overlap_check_nominal (rs 7) (hnominal 7 (by decide))
  have c8 := clear_timer_check_nominal (rs 8) (hnominal 8 (by decide))
    (hclr 8 (by decide) (by decide))
  have c9 := clear_timer_check_nominal (rs 9) (hnominal 9 (by decide))
    (hclr 9 (by decide) (by decide))
  have c10 := clear_timer_check_nominal (rs 10) (hnominal 10 (by decide))
    (hclr 10 (by decide) (by decide))
  have c11 := clear_timer_check_nominal (rs 11) (hnominal 11 (by decide))
    (hclr 11 (by decide) (by decide))
  have c12 := clear_timer_check_nominal (rs 12) (hnominal 12 (by decide))
    (hclr 12 (by decide) (by decide))
  have c13 := clear_timer_check_nominal (rs 13) (hnominal 13 (by decide))
    (hclr 13 (by decide) (by decide))
  have c14 := clear_timer_check_nominal (rs 14) (hnominal 14 (by decide))
    (hclr 14 (by decide) (by decide))
  have c15 := clear_timer_check_nominal (rs 15) (hnominal 15 (by decide))
    (hclr 15 (by decide) (by decide))
  have key : timer_overlap_warning_subtest rs =
      (if (rs 0).overlap_warning = false ∧ (rs 1).overlap_warning = false ∧
          (rs 2).overlap_warning = false ∧ (rs 3).overlap_warning = true ∧
          (rs 4).overlap_warning = true ∧ (rs 5).overlap_warning = true ∧
          (rs 6).overlap_warning = true ∧ (rs 7).overlap_warning = true
        then OK else FAIL) := by
    rw [timer_overlap_warning_subtest, e0, e1, e2, e3, e4, e5, e6, e7,
      c8, c9, c10, c11, c12, c13, c14, c15]
    rcases h0 : (rs 0).overlap_warning with _ | _
    · rcases h1 : (rs 1).overlap_warning with _ | _
      · rcases h2 : (rs 2).overlap_warning with _ | _
        · rcases h3 : (rs 3).overlap_warning with _ | _
          · simp [h0, h1, h2, h3, OK, FAIL]
          · rcases h4 : (rs 4).overlap_warning with _ | _
            · simp [h0, h1, h2, h3, h4, OK, FAIL]
            · rcases h5 : (rs 5).overlap_warning with _ | _
              · simp [h0, h1, h2, h3, h4, h5, OK, FAIL]
              · rcases h6 : (rs 6).overlap_warning with _ | _
                · simp [h0, h1, h2, h3, h4, h5, h6, OK, FAIL]
                · rcases h7 : (rs 7).overlap_warning with _ | _
                  · simp [h0, h1, h2, h3, h4, h5, h6, h7, OK, FAIL]
                  · simp [h0, h1, h2, h3, h4, h5, h6, h7, OK, FAIL]
        · simp [h0, h1, h2, OK, FAIL]
      · simp [h0, h1, OK, FAIL]
    · simp [h0, OK, FAIL]
  refine ⟨?_, ?_, by decide⟩
  · rw [key]
    by_cases hc : (rs 0).overlap_warning = false ∧ (rs 1).overlap_warning = false ∧
        (rs 2).overlap_warning = false ∧ (rs 3).overlap_warning = true ∧
        (rs 4).overlap_warning = true ∧ (rs 5).overlap_warning = true ∧
        (rs 6).overlap_warning = true ∧ (rs 7).overlap_warning = true
    · rw [if_pos hc]
      exact Or.inl rfl
    · rw [if_neg hc]
      exact Or.inr rfl
  · rw [key]
    by_cases hc : (rs 0).overlap_warning = false ∧ (rs 1).overlap_warning = false ∧
        (rs 2).overlap_warning = false ∧ (rs 3).overlap_warning = true ∧
        (rs 4).overlap_warning = true ∧ (rs 5).overlap_warning = true ∧
        (rs 6).overlap_warning = true ∧ (rs 7).overlap_warning = true
    · rw [if_pos hc]
      exact ⟨fun _ => hc, fun _ => rfl⟩
    · rw [if_neg hc]
      exact ⟨fun h => absurd h (by decide), fun h => absurd h hc⟩

/-- Closed witness for C7: the compliant remote passes the subtest, and
a remote that flags the merely-adjacent 10:00+0:15 timer as overlapping
fails it. -/
theorem timer_overlap_warning_correct_witness :
    timer_overlap_warning_subtest goodTimerReplies = OK ∧
    timer_overlap_warning_subtest
      (fun i => if i = 1 then ⟨true, false, false, 0, 0, true, 0⟩
        else goodTimerReplies i) = FAIL := by
  constructor
  · exact (timer_overlap_warning_correct goodTimerReplies (by decide) (by decide)).2.1.mpr
      (by decide)
  · have h := (timer_overlap_warning_correct
      (fun i => if i = 1 then ⟨true, false, false, 0, 0, true, 0⟩ else goodTimerReplies i)
      (by decide) (by decide))
    rcases h.1 with hok | hfail
    · exact absurd (h.2.1.mp hok).2.1 (by decide)
    · exact hfail

theorem fail_ite_eq_ok {c : Prop} [Decidable c] (x : Nat) :
    ((if c then FAIL else x) = OK) ↔ (¬c ∧ x = OK) := by
  by_cases h : c
  · simp [h, FAIL, OK]
  · simp [h]

/-- C9: `core_unknown` is dispatched with the remote powered on
(`node->in_standby = false`, cec-test.cpp:2271 with the subtest's
default `in_standby`), and under that condition it returns the passing
outcome `OK` exactly when the directed 0xfe transmission was accepted,
did not time out, and drew a feature abort whose reason is
"unrecognized opcode" and whose aborted-opcode field is 0xfe, while the
broadcast 0xfe transmission was accepted and timed out with no reply;
every other reply combination yields a failing outcome. -/
theorem core_unknown_correct (s : Bool) (d b : AbortReply) (hs : s = false) :
    core_unknown s d b = OK ↔
      d.transmit_ok = true ∧ d.timed_out = false ∧ d.is_abort = true ∧
      d.abort_reason = CEC_OP_ABORT_UNRECOGNIZED_OP ∧ d.abort_msg = 0xfe ∧
      b.transmit_ok = true ∧ b.timed_out = true := by
  subst hs
  rw [core_unknown, show fail_or_warn false = FAIL from rfl]
  rw [fail_ite_eq_ok, fail_ite_eq_ok, fail_ite_eq_ok, fail_ite_eq_ok, fail_ite_eq_ok,
    fail_ite_eq_ok]
  simp only [not_or, Bool.not_eq_false, Bool.not_eq_true, not_not, OK, and_assoc,
    and_true, eq_self_iff_true]

/-- Closed witness for C9: the compliant reply pair passes; replying
with abort reason "invalid operand" instead fails; a broadcast that
draws a reply (no timeout) fails. -/
theorem core_unknown_correct_witness :
    core_unknown false ⟨true, false, true, 0xfe, CEC_OP_ABORT_UNRECOGNIZED_OP⟩
      ⟨true, true, false, 0, 0⟩ = OK ∧
    core_unknown false ⟨true, false, true, 0xfe, CEC_OP_ABORT_INVALID_OP⟩
      ⟨true, true, false, 0, 0⟩ ≠ OK ∧
    core_unknown false ⟨true, false, true, 0xfe, CEC_OP_ABORT_UNRECOGNIZED_OP⟩
      ⟨true, false, false, 0, 0⟩ ≠ OK := by
  refine ⟨?_, ?_, ?_⟩
  · exact (core_unknown_correct false _ _ rfl).mpr (by decide)
  · intro h
    have := (core_unknown_correct false _ _ rfl).mp h
    revert this
    decide
  · intro h
    have := (core_unknown_correct false _ _ rfl).mp h
    revert this
    decide

theorem takeWhile_no_eq (s : List Char) (h : '=' ∉ s) :
    s.takeWhile (fun c => c != '=') = s := by
  induction s with
  | nil => rfl
  | cons c rest ih =>
    have hc : c ≠ '=' := fun hc => h (hc ▸ List.mem_cons_self c rest)
    rw [List.takeWhile_cons, if_pos (by simp [hc])]
    rw [ih (fun hm => h (List.mem_cons_of_mem c hm))]

theorem dropWhile_no_eq (s : List Char) (h : '=' ∉ s) :
    s.dropWhile (fun c => c != '=') = [] := by
  induction s with
  | nil => rfl
  | cons c rest ih =>
    have hc : c ≠ '=' := fun hc => h (hc ▸ List.mem_cons_self c rest)
    rw [List.dropWhile_cons, if_pos (by simp [hc])]
    exact ih (fun hm => h (List.mem_cons_of_mem c hm))

theorem takeWhile_first_eq (pre post : List Char) (h : '=' ∉ pre) :
    (pre ++ '=' :: post).takeWhile (fun c => c != '=') = pre := by
  induction pre with
  | nil =>
    rw [List.nil_append, List.takeWhile_cons]
    simp
  | cons c rest ih =>
    have hc : c ≠ '=' := fun hc => h (hc ▸ List.mem_cons_self c rest)
    rw [List.cons_append, List.takeWhile_cons, if_pos (by simp [hc])]
    rw [ih (fun hm => h (List.mem_cons_of_mem c hm))]

theorem dropWhile_first_eq (pre post : List Char) (h : '=' ∉ pre) :
    (pre ++ '=' :: post).dropWhile (fun c => c != '=') = '=' :: post := by
  induction pre with
  | nil =>
    rw [List.nil_append, List.dropWhile_cons]
    simp
  | cons c rest ih =>
    have hc : c ≠ '=' := fun hc => h (hc ▸ List.mem_cons_self c rest)
    rw [List.cons_append, List.dropWhile_cons, if_pos (by simp [hc])]
    exact ih (fun hm => h (List.mem_cons_of_mem c hm))

/-- C10: `setExpectedResult` returns 1 and leaves both maps unchanged
when the argument contains no `=`, and — writing the argument as
`pre ++ '=' :: post` around its first `=` — when `pre` is empty, when
`post` does not start with a decimal digit, or when the sanitized
`pre` is not registered in `mapTests`; otherwise it returns 0 and
stores the parsed value and the no-warnings flag under the sanitized
name. -/
theorem setExpectedResult_correct (tmap : List (String × Nat))
    (wmap : List (String × Bool)) (optarg : List Char) (nw : Bool) :
    ('=' ∉ optarg → setExpectedResult tmap wmap optarg nw = (1, tmap, wmap)) ∧
    (∀ pre post, optarg = pre ++ '=' :: post → '=' ∉ pre →
      ((pre = [] ∨ (post.head?.map isdigit).getD false = false ∨
          mapFind tmap (safename ⟨pre⟩) = none) →
        setExpectedResult tmap wmap optarg nw = (1, tmap, wmap)) ∧
      (pre ≠ [] → (post.head?.map isdigit).getD false = true →
        mapFind tmap (safename ⟨pre⟩) ≠ none →
        setExpectedResult tmap wmap optarg nw =
          (0, mapSet tmap (safename ⟨pre⟩) (strtoul0 post),
            mapSet wmap (safename ⟨pre⟩) nw))) := by
  constructor
  · intro h
    rw [setExpectedResult, if_pos (dropWhile_no_eq optarg h)]
  · intro pre post heq hpre
    subst heq
    rw [setExpectedResult, dropWhile_first_eq pre post hpre, takeWhile_first_eq pre post hpre,
      if_neg (List.cons_ne_nil _ _)]
    simp only [List.drop_succ_cons, List.drop_zero]
    constructor
    · rintro (h | h | h)
      · rw [if_pos h]
      · by_cases hp : pre = []
        · rw [if_pos hp]
        · rw [if_neg hp, if_pos h]
      · by_cases hp : pre = []
        · rw [if_pos hp]
        · rw [if_neg hp]
          by_cases hd : (post.head?.map isdigit).getD false = false
          · rw [if_pos hd]
          · rw [if_neg hd, if_pos h]
    · intro hp hd hreg
      rw [if_neg hp, if_neg (by rw [hd]; exact fun hc => Bool.noConfusion hc), if_neg hreg]

/-- Closed witness for C10: with "Deck Ctl" registered, the argument
`Deck Ctl=0x10` parses (name sanitized to "Deck_Ctl", value 16, flag
stored) and returns 0, while `Deck Ctl=x`, `=3`, `nosuch=3` and an
argument without `=` all return 1 and leave the maps unchanged. -/
theorem setExpectedResult_correct_witness :
    setExpectedResult [("Deck_Ctl", DONT_CARE)] [("Deck_Ctl", false)]
      ("Deck Ctl=0x10".toList) true =
      (0, [("Deck_Ctl", 16)], [("Deck_Ctl", true)]) ∧
    setExpectedResult [("Deck_Ctl", DONT_CARE)] [("Deck_Ctl", false)]
      ("Deck Ctl=x".toList) true =
      (1, [("Deck_Ctl", DONT_CARE)], [("Deck_Ctl", false)]) ∧
    setExpectedResult [("Deck_Ctl", DONT_CARE)] [("Deck_Ctl", false)]
      ("=3".toList) true = (1, [("Deck_Ctl", DONT_CARE)], [("Deck_Ctl", false)]) ∧
    setExpectedResult [("Deck_Ctl", DONT_CARE)] [("Deck_Ctl", false)]
      ("nosuch=3".toList) true =
      (1, [("Deck_Ctl", DONT_CARE)], [("Deck_Ctl", false)]) ∧
    setExpectedResult [("Deck_Ctl", DONT_CARE)] [("Deck_Ctl", false)]
      ("Deck Ctl".toList) true =
      (1, [("Deck_Ctl", DONT_CARE)], [("Deck_Ctl", false)]) := by
  refine ⟨?_, ?_, ?_, ?_, ?_⟩
  · have h := ((setExpectedResult_correct [("Deck_Ctl", DONT_CARE)] [("Deck_Ctl", false)]
      ("Deck Ctl=0x10".toList) true).2 ("Deck Ctl".toList) ("0x10".toList)
      (by decide) (by decide)).2 (by decide) (by decide) (by decide)
    rw [h]
    decide
  · exact ((setExpectedResult_correct _ _ _ _).2 ("Deck Ctl".toList) ("x".toList)
      (by decide) (by decide)).1 (Or.inr (Or.inl (by decide)))
  · exact ((setExpectedResult_correct _ _ _ _).2 [] ("3".toList)
      (by decide) (by decide)).1 (Or.inl rfl)
  · exact ((setExpectedResult_correct _ _ _ _).2 ("nosuch".toList) ("3".toList)
      (by decide) (by decide)).1 (Or.inr (Or.inr (by decide)))
  · exact (setExpectedResult_correct _ _ _ _).1 (by decide)

end CecCompliance
